import Mathlib

/-
Verification development for the ticket-processor repository: a Kafka
producer/consumer pair (Go, sarama client) transferring Ticket records.

The Go sources are embedded shallowly:
  - pure data and control flow are translated to Lean functions;
  - machine integers are Int/Nat (Go int64 arithmetic here never overflows:
    the only arithmetic is counter increments and date arithmetic far below
    2^63);
  - Go time.Time values are modelled by their instant (seconds and
    nanoseconds since the Unix epoch, the fields time.Time transports
    through RFC 3339 serialization and compares with Equal); the processes
    run in containers whose clock zone is UTC, and RFC 3339 transports the
    instant under any zone rendering;
  - fallible library calls return Except/Option, runtime panics are an
    explicit constructor;
  - behavior of the vendored libraries (encoding/json and time in the Go
    standard library, the IBM/sarama client) is modelled from their
    documented semantics where the repository calls them, and each such
    definition says so in its doc comment.
-/

/- ========================================================================
   Section 1: decimal digits and fixed-width fields (strconv / time format)
   ======================================================================== -/

/-- The ASCII digit character for k (used with k < 10). -/
def digitChar (k : Nat) : Char := Char.ofNat (48 + k)

/-- Numeric value of an ASCII digit character. -/
def digitVal (c : Char) : Nat := c.toNat - 48

/-- Whether c is an ASCII digit. -/
def isDigitCh (c : Char) : Bool := 48 ≤ c.toNat && c.toNat ≤ 57

/-- Two-digit zero-padded decimal field. -/
def pad2 (n : Nat) : List Char := [digitChar (n / 10), digitChar (n % 10)]

/-- Four-digit zero-padded decimal field. -/
def pad4 (n : Nat) : List Char :=
  [digitChar (n / 1000), digitChar (n / 100 % 10), digitChar (n / 10 % 10), digitChar (n % 10)]

/-- Read exactly two digit characters. -/
def parse2 : List Char → Option (Nat × List Char)
  | a :: b :: rest =>
    if isDigitCh a && isDigitCh b then some (10 * digitVal a + digitVal b, rest) else none
  | _ => none

/-- Read exactly four digit characters. -/
def parse4 : List Char → Option (Nat × List Char)
  | a :: b :: c :: d :: rest =>
    if isDigitCh a && isDigitCh b && isDigitCh c && isDigitCh d then
      some (1000 * digitVal a + 100 * digitVal b + 10 * digitVal c + digitVal d, rest)
    else none
  | _ => none

/-- Consume one expected separator character. -/
def expectCh (c : Char) : List Char → Option (List Char)
  | x :: rest => if x = c then some rest else none
  | [] => none

/-- Least-significant-first decimal digits of v, fixed width L. -/
def lsbDigits : Nat → Nat → List Char
  | 0, _ => []
  | L + 1, v => digitChar (v % 10) :: lsbDigits L (v / 10)

/-- Numeric value of a least-significant-first digit list. -/
def valLSB : List Char → Nat
  | [] => 0
  | c :: cs => digitVal c + 10 * valLSB cs

/-- Numeric value of a most-significant-first digit list. -/
def valMSB (cs : List Char) : Nat := cs.foldl (fun a c => 10 * a + digitVal c) 0

/-- Drop leading zero characters (trailing zeros of the rendered number). -/
def stripLeadZeros (cs : List Char) : List Char := cs.dropWhile (fun c => c == '0')

/-- Most-significant-first digits of n, no padding; n = 0 renders as a
single zero digit, mirroring strconv. -/
def natDigitsRev (n : Nat) : List Char :=
  if h : n < 10 then [digitChar n]
  else digitChar (n % 10) :: natDigitsRev (n / 10)
termination_by n
decreasing_by
  simp only [not_lt] at h
  omega

/-- Decimal rendering of a natural number, most significant digit first. -/
def natDecimal (n : Nat) : String := String.mk (natDigitsRev n).reverse

/-- Models strconv.FormatInt(i, 10) from the Go standard library: decimal
rendering of an int64, with a leading minus sign for negative values. -/
def formatInt (n : Int) : String :=
  if n < 0 then String.mk ('-' :: (natDigitsRev (-n).toNat).reverse) else natDecimal n.toNat

/- ========================================================================
   Section 2: proleptic Gregorian calendar (Go time.absDate cycle cutting)
   ======================================================================== -/

/-- Split a day count into 400-year cycles (146097 days each). -/
def cut400 (d : Int) : Int × Int := (d / 146097, d - 146097 * (d / 146097))

/-- Cut 100-year cycles (36524 days); the last cycle of a 400-year era has
one extra leap day, so the quotient 4 is cut back to 3, as in Go
time.absDate. -/
def cut100 (r : Int) : Int × Int :=
  let n : Int := r / 36524 - r / 36524 / 4
  (n, r - 36524 * n)

/-- Cut 4-year cycles (1461 days). -/
def cut4 (r : Int) : Int × Int := (r / 1461, r - 1461 * (r / 1461))

/-- Cut years within a 4-year cycle; the last year is the leap year, so the
quotient 4 is cut back to 3, as in Go time.absDate. -/
def cut1 (r : Int) : Int × Int :=
  let n : Int := r / 365 - r / 365 / 4
  (n, r - 365 * n)

/-- Day count (from the base year -399, chosen ≡ 1 mod 400 so that the
cycle structure matches Go time.absDate) to (year offset, day of year). -/
def cutCycles (d : Int) : Int × Int :=
  let p400 := cut400 d
  let p100 := cut100 p400.2
  let p4 := cut4 p100.2
  let p1 := cut1 p4.2
  (400 * p400.1 + 100 * p100.1 + 4 * p4.1 + p1.1, p1.2)

/-- Split a year offset into 400-year eras. -/
def split400 (y : Int) : Int × Int := (y / 400, y - 400 * (y / 400))

/-- Split into centuries. -/
def split100 (y : Int) : Int × Int := (y / 100, y - 100 * (y / 100))

/-- Split into 4-year cycles. -/
def split4 (y : Int) : Int × Int := (y / 4, y - 4 * (y / 4))

/-- Days from the base year -399 to the start of year offset dy, mirroring
Go time.daysSinceEpoch cycle accumulation. -/
def daysOfYearStart (dy : Int) : Int :=
  let a := split400 dy
  let b := split100 a.2
  let c := split4 b.2
  146097 * a.1 + 36524 * b.1 + 1461 * c.1 + 365 * c.2

/-- Cumulative days before each month in a non-leap year (Go daysBefore
table), total over 12 for any argument past December. -/
def daysBefore (m : Int) : Int :=
  if m ≤ 0 then 0
  else if m = 1 then 31
  else if m = 2 then 59
  else if m = 3 then 90
  else if m = 4 then 120
  else if m = 5 then 151
  else if m = 6 then 181
  else if m = 7 then 212
  else if m = 8 then 243
  else if m = 9 then 273
  else if m = 10 then 304
  else if m = 11 then 334
  else 365

/-- Month/day extraction from a 0-based day of year, mirroring Go
time.absDate: in a leap year the leap day is special-cased and later days
are shifted down before the table lookup. -/
def monthDayOfYday (leap : Bool) (yday0 : Int) : Int × Int :=
  if leap ∧ yday0 = 59 then (2, 29)
  else
    let yd : Int := if leap ∧ 59 < yday0 then yday0 - 1 else yday0
    let m0 : Int := yd / 31
    let m1 : Int := if daysBefore (m0 + 1) ≤ yd then m0 + 1 else m0
    (m1 + 1, yd - daysBefore m1 + 1)

/-- The 0-based day of year for a month/day pair, mirroring Go time.Date:
days before the month, the leap-day shift from March on, days in the
month. -/
def ydayOfMonthDay (leap : Bool) (m day : Int) : Int :=
  daysBefore (m - 1) + (if leap ∧ 3 ≤ m then 1 else 0) + day - 1

/-- Gregorian leap-year rule (Go time.isLeap). -/
def isLeapYear (y : Int) : Bool := y % 4 == 0 && (y % 100 != 0 || y % 400 == 0)

/-- Calendar date of an instant's day: seconds since the Unix epoch to
(year, month, day). 865259 days separate the base year -399 from
1970-01-01. -/
def dateOf (sec : Int) : Int × Int × Int :=
  let cc := cutCycles (sec / 86400 + 865259)
  let y := cc.1 - 399
  let md := monthDayOfYday (isLeapYear y) cc.2
  (y, md.1, md.2)

/-- Clock of an instant's day: (hour, minute, second). -/
def clockOf (sec : Int) : Nat × Nat × Nat :=
  let sod := (sec % 86400).toNat
  (sod / 3600, sod % 3600 / 60, sod % 60)

/- ========================================================================
   Section 3: RFC 3339 with nanoseconds (Go time.Time JSON encoding)
   ======================================================================== -/

/-- The fractional-second field of RFC3339Nano: empty when the nanosecond
count is zero, otherwise a dot and the 9-digit field with trailing zeros
removed, as Go time formatting does. -/
def fracPart (nsec : Nat) : List Char :=
  if nsec = 0 then [] else '.' :: (stripLeadZeros (lsbDigits 9 nsec)).reverse

/-- Models the RFC3339Nano rendering Go time.Time.MarshalJSON produces for
an instant (UTC zone). -/
def fmtRFC3339Nano (sec : Int) (nsec : Nat) : List Char :=
  pad4 (dateOf sec).1.toNat ++ '-' :: (pad2 (dateOf sec).2.1.toNat ++ '-' ::
    (pad2 (dateOf sec).2.2.toNat ++ 'T' :: (pad2 (clockOf sec).1 ++ ':' ::
      (pad2 (clockOf sec).2.1 ++ ':' :: (pad2 (clockOf sec).2.2 ++ (fracPart nsec ++ ['Z']))))))

/-- Value of a parsed fractional field of up to nine digits, scaled to
nanoseconds. -/
def parseFracDigits (ds rest : List Char) : Option (Nat × List Char) :=
  if ds.length = 0 then none
  else if 9 < ds.length then none
  else some (valMSB ds * 10 ^ (9 - ds.length), rest)

/-- Optional fractional-second field: a dot followed by one to nine
digits, or nothing. -/
def parseFrac (cs : List Char) : Option (Nat × List Char) :=
  match cs with
  | c :: rest =>
    if c = '.' then parseFracDigits (rest.takeWhile isDigitCh) (rest.dropWhile isDigitCh)
    else some (0, cs)
  | [] => some (0, [])

/-- Date fields of an RFC 3339 string: year, month, day up to the 'T'. -/
def parseDatePart (cs : List Char) : Option (Nat × Nat × Nat × List Char) :=
  (parse4 cs).bind fun p1 =>
  (expectCh '-' p1.2).bind fun cs1 =>
  (parse2 cs1).bind fun p2 =>
  (expectCh '-' p2.2).bind fun cs2 =>
  (parse2 cs2).bind fun p3 =>
  (expectCh 'T' p3.2).bind fun cs3 =>
  some (p1.1, p2.1, p3.1, cs3)

/-- Clock fields of an RFC 3339 string: hour, minute, second. -/
def parseClockPart (cs : List Char) : Option (Nat × Nat × Nat × List Char) :=
  (parse2 cs).bind fun p4 =>
  (expectCh ':' p4.2).bind fun cs4 =>
  (parse2 cs4).bind fun p5 =>
  (expectCh ':' p5.2).bind fun cs5 =>
  (parse2 cs5).bind fun p6 =>
  some (p4.1, p5.1, p6.1, p6.2)

/-- Fractional seconds followed by the UTC designator and end of input. -/
def parseFracZEnd (cs : List Char) : Option Nat :=
  (parseFrac cs).bind fun p7 =>
  (expectCh 'Z' p7.2).bind fun cs6 =>
  if cs6.isEmpty then some p7.1 else none

/-- Models Go time.Time.UnmarshalJSON parsing of an RFC 3339 timestamp
back to an instant (UTC rendering; Go additionally validates field ranges,
which only rejects strings the formatter never produces). -/
def parseRFC3339 (cs : List Char) : Option (Int × Nat) :=
  (parseDatePart cs).bind fun d =>
  (parseClockPart d.2.2.2).bind fun c =>
  (parseFracZEnd c.2.2.2).bind fun ns =>
  some ((daysOfYearStart ((d.1 : Int) + 399) +
    ydayOfMonthDay (isLeapYear (d.1 : Int)) (d.2.1 : Int) (d.2.2.1 : Int) - 865259) * 86400 +
    (c.1 : Int) * 3600 + (c.2.1 : Int) * 60 + (c.2.2.1 : Int), ns)

/- ========================================================================
   Section 4: the Ticket record and its JSON encoding
   ======================================================================== -/

/-- A Go time.Time value, modelled by its instant: seconds since the Unix
epoch and a nanosecond part (Go keeps 0 ≤ nsec < 1e9 by construction; the
predicate GoTime.wf states that invariant). -/
structure GoTime where
  sec : Int
  nsec : Nat
deriving DecidableEq

/-- The nanosecond-range invariant Go time.Time values satisfy. -/
def GoTime.wf (t : GoTime) : Prop := t.nsec < 1000000000

/-- The Ticket record (internal/models/ticket.go): ID string, Timestamp
time.Time, OrderID int64, Data string, with JSON tags id, timestamp,
order_id, data. -/
structure Ticket where
  ID : String
  Timestamp : GoTime
  OrderID : Int
  Data : String
deriving DecidableEq

/-- JSON values as far as this wire format needs them: strings, integer
numbers and objects. -/
inductive Json where
  | str : String → Json
  | num : Int → Json
  | obj : List (String × Json) → Json

/-- Models Go time.Time.MarshalJSON: an RFC 3339 string with sub-second
precision, or an error when the year falls outside [0,9999]. -/
def timeMarshalJSON (t : GoTime) : Except String String :=
  if (dateOf t.sec).1 < 0 ∨ 9999 < (dateOf t.sec).1 then
    Except.error "Time.MarshalJSON: year outside of range [0,9999]"
  else Except.ok (String.mk (fmtRFC3339Nano t.sec t.nsec))

/-- Models Go time.Time.UnmarshalJSON on a timestamp string. -/
def timeUnmarshalJSON (s : String) : Option GoTime :=
  (parseRFC3339 s.data).map fun p => { sec := p.1, nsec := p.2 }

/-- Models encoding/json.Marshal on a Ticket: fields in struct order under
their tags; fails exactly when the timestamp does (strings are Unicode
text, so the invalid-UTF-8 replacement path of encoding/json does not
arise). -/
def ticketMarshalJSON (t : Ticket) : Except String Json :=
  match timeMarshalJSON t.Timestamp with
  | Except.error e => Except.error e
  | Except.ok ts =>
    Except.ok (Json.obj [("id", Json.str t.ID), ("timestamp", Json.str ts),
      ("order_id", Json.num t.OrderID), ("data", Json.str t.Data)])

/-- First field with the given key (encoding/json matches struct tags; on
the encoder's output each key occurs once, so first and last coincide). -/
def jsonLookup (fields : List (String × Json)) (key : String) : Option Json :=
  (fields.find? (fun p => p.1 == key)).map Prod.snd

/-- Models encoding/json.Unmarshal into a Ticket: an object whose tagged
fields carry a string id, an RFC 3339 timestamp, an integer order_id and a
string data. -/
def ticketUnmarshalJSON (j : Json) : Option Ticket :=
  match j with
  | Json.obj fields =>
    match jsonLookup fields "id", jsonLookup fields "timestamp",
        jsonLookup fields "order_id", jsonLookup fields "data" with
    | some (Json.str i), some (Json.str ts), some (Json.num o), some (Json.str da) =>
      (timeUnmarshalJSON ts).map fun gt =>
        { ID := i, Timestamp := gt, OrderID := o, Data := da }
    | _, _, _, _ => none
  | _ => none

/- ========================================================================
   Section 5: sarama client configuration and the producer (producer.go)
   ======================================================================== -/

/-- Partitioner constructors the repository mentions. -/
inductive PartitionerKind where
  | hashPart
  | randomPart
deriving DecidableEq

/-- The sarama configuration fields this repository touches. -/
structure SaramaConfig where
  producerRequiredAcks : Int
  producerRetryMax : Nat
  producerReturnSuccesses : Bool
  producerIdempotent : Bool
  producerPartitioner : PartitionerKind
  netMaxOpenRequests : Nat
  versionAtLeast0110 : Bool
deriving DecidableEq

/-- Models sarama.NewConfig() defaults for those fields (IBM/sarama:
RequiredAcks WaitForLocal = 1, Retry.Max 3, Return.Successes false,
Idempotent false, Partitioner NewHashPartitioner, Net.MaxOpenRequests 5,
Version = DefaultVersion = V2_1_0_0 which is at least V0_11_0_0). -/
def saramaNewConfig : SaramaConfig :=
  { producerRequiredAcks := 1
    producerRetryMax := 3
    producerReturnSuccesses := false
    producerIdempotent := false
    producerPartitioner := PartitionerKind.hashPart
    netMaxOpenRequests := 5
    versionAtLeast0110 := true }

/-- Models the idempotent-producer clause of sarama Config.Validate(),
which sarama.NewSyncProducer runs before contacting any broker: idempotent
mode requires a version of at least V0_11_0_0, a positive Retry.Max,
RequiredAcks = WaitForAll (-1) and Net.MaxOpenRequests = 1. -/
def saramaValidateIdempotent (c : SaramaConfig) : Except String Unit :=
  if c.producerIdempotent then
    if ¬ c.versionAtLeast0110 then
      Except.error "Idempotent producer requires Version to be >= V0_11_0_0"
    else if c.producerRetryMax = 0 then
      Except.error "Idempotent producer requires Producer.Retry.Max >= 1"
    else if c.producerRequiredAcks ≠ -1 then
      Except.error "Idempotent producer requires Producer.RequiredAcks to be WaitForAll"
    else if 1 < c.netMaxOpenRequests then
      Except.error "Idempotent producer requires Net.MaxOpenRequests to be 1"
    else Except.ok ()
  else Except.ok ()

/-- The configuration NewProducer builds (producer.go lines 20-28):
WaitForAll acks, Retry.Max 5, Return.Successes, Idempotent, hash
partitioner; nothing else is set, so Net.MaxOpenRequests keeps its
default. -/
def newProducerConfig : SaramaConfig :=
  { saramaNewConfig with
    producerRequiredAcks := -1
    producerRetryMax := 5
    producerReturnSuccesses := true
    producerIdempotent := true
    producerPartitioner := PartitionerKind.hashPart }

/-- The Prometheus counters of internal/metrics (part_003): the two
counters and the error counter as counts, the histogram as its observation
count, the lag gauge as the last duration set, in nanoseconds (the code
converts the int64 duration to seconds for the float gauge; the duration
itself is what the model tracks). -/
structure Metrics where
  messagesProduced : Nat
  messagesConsumed : Nat
  errorsCount : Nat
  processingObservations : Nat
  consumerLagNanos : Int
deriving DecidableEq

/-- Fresh metrics as NewMetrics registers them: all counters at zero. -/
def NewMetrics : Metrics :=
  { messagesProduced := 0
    messagesConsumed := 0
    errorsCount := 0
    processingObservations := 0
    consumerLagNanos := 0 }

/-- The Producer struct (producer.go): topic and a possibly-nil pointer to
the metrics (none models the nil pointer). -/
structure Producer where
  topic : String
  metrics : Option Metrics
deriving DecidableEq

/-- The struct literal NewProducer returns (producer.go lines 35-38): the
metrics field is not assigned, so the pointer is nil. -/
def newProducerStruct (topic : String) : Producer :=
  { topic := topic, metrics := none }

/-- Models NewProducer (producer.go lines 19-39): NewSyncProducer first
validates the configuration, then needs reachable brokers; on success the
struct literal above is returned. -/
def NewProducer (brokers : List String) (topic : String) (brokersReachable : Bool) :
    Except String Producer :=
  match saramaValidateIdempotent newProducerConfig with
  | Except.error e => Except.error e
  | Except.ok _ =>
    if brokersReachable then Except.ok (newProducerStruct topic)
    else Except.error "kafka: client has run out of available brokers to talk to"

/-- The partition key SendTicket derives (producer.go line 50):
strconv.FormatInt(ticket.OrderID, 10). -/
def ticketKey (t : Ticket) : String := formatInt t.OrderID

/-- The sarama ProducerMessage SendTicket builds (producer.go lines 48-53). -/
structure ProducerMessage where
  topic : String
  key : String
  value : Json
  timestamp : GoTime

/-- Every outcome of a SendTicket call (producer.go lines 41-63): an early
return on a marshal error; a nil-pointer panic when a counter of the nil
metrics field is incremented; a returned send error after counting it; or
success after counting it. The broker's answer to SendMessage is the
sendErr parameter. -/
inductive SendTicketResult where
  | marshalErr : String → SendTicketResult
  | panickedNilMetrics : ProducerMessage → SendTicketResult
  | returnedErr : ProducerMessage → String → Metrics → SendTicketResult
  | success : ProducerMessage → Metrics → SendTicketResult

/-- Models SendTicket (producer.go lines 41-63). -/
def SendTicket (p : Producer) (t : Ticket) (sendErr : Option String) : SendTicketResult :=
  match ticketMarshalJSON t with
  | Except.error e => SendTicketResult.marshalErr e
  | Except.ok data =>
    let msg : ProducerMessage :=
      { topic := p.topic, key := ticketKey t, value := data, timestamp := t.Timestamp }
    match sendErr, p.metrics with
    | some _, none => SendTicketResult.panickedNilMetrics msg
    | some e, some m =>
      SendTicketResult.returnedErr msg e { m with errorsCount := m.errorsCount + 1 }
    | none, none => SendTicketResult.panickedNilMetrics msg
    | none, some m =>
      SendTicketResult.success msg { m with messagesProduced := m.messagesProduced + 1 }

/-- Whether a SendTicket call got past serialization to the broker send. -/
def SendTicketResult.reachedSend : SendTicketResult → Bool
  | SendTicketResult.marshalErr _ => false
  | _ => true

/- ========================================================================
   Section 6: hash partitioner and the partitioned log
   ======================================================================== -/

/-- UTF-8 byte encoding of one character (sarama StringEncoder.Encode
yields the UTF-8 bytes of the key; the keys here are ASCII decimals, which
take the one-byte branch). -/
def utf8EncodeChar (c : Char) : List Nat :=
  let n := c.toNat
  if n < 128 then [n]
  else if n < 2048 then [192 + n / 64, 128 + n % 64]
  else if n < 65536 then [224 + n / 4096, 128 + n / 64 % 64, 128 + n % 64]
  else [240 + n / 262144, 128 + n / 4096 % 64, 128 + n / 64 % 64, 128 + n % 64]

/-- UTF-8 bytes of a string. -/
def strBytes (s : String) : List Nat := (s.data.map utf8EncodeChar).flatten

/-- FNV-1a, 32 bits (hash/fnv New32a), as sarama's hash partitioner uses
it: offset basis 2166136261, prime 16777619, xor then multiply per byte,
truncated to 32 bits. -/
def fnv32a (bytes : List Nat) : Nat :=
  bytes.foldl (fun h b => ((h ^^^ b) * 16777619) % 4294967296) 2166136261

/-- Reinterpret an unsigned 32-bit value as Go int32. -/
def toSigned32 (h : Nat) : Int :=
  if h < 2147483648 then (h : Int) else (h : Int) - 4294967296

/-- Models sarama hashPartitioner.Partition for a keyed message: the FNV-1a
sum cast to int32, reduced modulo the partition count with Go's truncated
remainder, negated if negative. -/
def hashPartition (key : String) (numPartitions : Int) : Int :=
  let p := Int.tmod (toSigned32 (fnv32a (strBytes key))) numPartitions
  if p < 0 then -p else p

/-- Modelled from the spec: the broker's partitioned append-only log. A
production sequence of keyed records is distributed by the partitioner,
and each partition delivers its records to the consumer in append order,
so the delivery sequence of partition p is the production-order
subsequence of the records keyed to p. -/
def deliveredOnPartition (msgs : List (String × Json)) (numPartitions p : Int) :
    List (String × Json) :=
  msgs.filter (fun kv => hashPartition kv.1 numPartitions == p)

/- ========================================================================
   Section 7: consumer group handlers (part_000 and cmd/consumer/main.go)
   ======================================================================== -/

/-- A delivered sarama ConsumerMessage: partition coordinates and the
payload; a payload that is not valid JSON at all is modelled as none,
one that is JSON of the wrong shape as some of that value. -/
structure ConsumerMessage where
  topic : String
  partition : Int
  offset : Int
  value : Option Json

/-- What Handler.ConsumeClaim (part_000 lines 65-87) does with one
message, in order: a failed decode counts an error and skips the rest of
the body; a successful decode counts the consumption, observes the
processing duration and sets the lag gauge to now minus the record's
created_at, and only then marks the message. -/
inductive ConsumeEvent where
  | decodeFailed : ConsumerMessage → ConsumeEvent
  | processed : ConsumerMessage → Ticket → ConsumeEvent
  | marked : ConsumerMessage → ConsumeEvent

/-- Nanoseconds since the Unix epoch of a modelled time value. -/
def GoTime.nanos (t : GoTime) : Int := t.sec * 1000000000 + t.nsec

/-- One iteration of the Handler.ConsumeClaim loop body (part_000 lines
66-86); now is the current instant in nanoseconds. -/
def handleOneMessage (now : Int) (m : Metrics) (msg : ConsumerMessage) :
    Metrics × List ConsumeEvent :=
  match msg.value.bind ticketUnmarshalJSON with
  | none => ({ m with errorsCount := m.errorsCount + 1 }, [ConsumeEvent.decodeFailed msg])
  | some t =>
    ({ m with
        messagesConsumed := m.messagesConsumed + 1
        processingObservations := m.processingObservations + 1
        consumerLagNanos := now - t.Timestamp.nanos },
     [ConsumeEvent.processed msg t, ConsumeEvent.marked msg])

/-- Models Handler.ConsumeClaim (part_000 lines 65-87): the loop over
claim.Messages() in delivery order, threading the metrics and collecting
the events. -/
def ConsumeClaim (now : Int) (m : Metrics) : List ConsumerMessage → Metrics × List ConsumeEvent
  | [] => (m, [])
  | msg :: rest =>
    let step := handleOneMessage now m msg
    let tail := ConsumeClaim now step.1 rest
    (tail.1, step.2 ++ tail.2)

/-- Sarama MarkMessage records offset + 1 for the message's partition;
the committed offset of a partition after a run is the largest marked
offset, starting from the committed offset held before the run. -/
def committedAfter (events : List ConsumeEvent) (p : Int) (c0 : Int) : Int :=
  events.foldl
    (fun acc e =>
      match e with
      | ConsumeEvent.marked msg => if msg.partition = p then max acc (msg.offset + 1) else acc
      | _ => acc)
    c0

/-- What ConsumerHandler.ConsumeClaim (cmd/consumer/main.go lines 31-42)
does with one message: log it (its only processing), then mark it. -/
inductive MainConsumeEvent where
  | logged : ConsumerMessage → MainConsumeEvent
  | marked : ConsumerMessage → MainConsumeEvent

/-- Models ConsumerHandler.ConsumeClaim (cmd/consumer/main.go lines
31-42). -/
def mainConsumeClaim : List ConsumerMessage → List MainConsumeEvent
  | [] => []
  | msg :: rest =>
    MainConsumeEvent.logged msg :: MainConsumeEvent.marked msg :: mainConsumeClaim rest

/- ========================================================================
   Section 8: retry backoff (retry.go) and the session lifecycle
   ======================================================================== -/

/-- RetryConfig (retry.go lines 9-14); durations in nanoseconds, the
multiplier as an exact rational. -/
structure RetryConfig where
  MaxRetries : Nat
  InitialInterval : Int
  MaxInterval : Int
  Multiplier : Rat
deriving DecidableEq

/-- NewRetryConfig (retry.go lines 16-23): 5 retries, 100ms initial, 2s
cap, multiplier 2. -/
def NewRetryConfig : RetryConfig :=
  { MaxRetries := 5
    InitialInterval := 100000000
    MaxInterval := 2000000000
    Multiplier := 2 }

/-- The fields of cenkalti/backoff.ExponentialBackOff the repository
touches; durations in nanoseconds, factors as exact rationals. -/
structure ExponentialBackOff where
  initialInterval : Int
  randomizationFactor : Rat
  multiplier : Rat
  maxInterval : Int
  maxElapsedTime : Int
deriving DecidableEq

/-- Models backoff.NewExponentialBackOff() defaults: 500ms initial,
randomization 0.5, multiplier 1.5, 60s interval cap, 15min elapsed cap. -/
def backoffDefaults : ExponentialBackOff :=
  { initialInterval := 500000000
    randomizationFactor := 1/2
    multiplier := 3/2
    maxInterval := 60000000000
    maxElapsedTime := 900000000000 }

/-- Models RetryConfig.CreateBackOff (retry.go lines 25-32): the defaults
with the interval, cap and multiplier overridden and the elapsed cap set
to MaxRetries times MaxInterval. -/
def CreateBackOff (rc : RetryConfig) : ExponentialBackOff :=
  { backoffDefaults with
    initialInterval := rc.InitialInterval
    maxInterval := rc.MaxInterval
    multiplier := rc.Multiplier
    maxElapsedTime := (rc.MaxRetries : Int) * rc.MaxInterval }

/-- The consumer main loop state the session lifecycle touches
(cmd/consumer/main.go lines 62-91): whether the current ready channel has
been closed, how many ready channels were created so far, and the
WaitGroup counter. -/
structure LoopState where
  readyClosed : Bool
  readyGeneration : Nat
  wgCounter : Int
deriving DecidableEq

/-- A session run either completes or panics with a Go runtime message. -/
inductive SessionResult where
  | ok : LoopState → SessionResult
  | panicked : String → SessionResult
deriving DecidableEq

/-- State after main's prologue: wg.Add(1) once, one fresh unclosed ready
channel. -/
def initialLoopState : LoopState :=
  { readyClosed := false, readyGeneration := 1, wgCounter := 1 }

/-- One complete Consume call as the goroutine loop drives it: Setup
closes handler.ready (panicking if it is already closed), Cleanup calls
wg.Done (panicking if the counter would go negative), and after Consume
returns the loop assigns a fresh ready channel. -/
def sessionStep (s : LoopState) : SessionResult :=
  if s.readyClosed then SessionResult.panicked "close of closed channel"
  else if s.wgCounter - 1 < 0 then SessionResult.panicked "sync: negative WaitGroup counter"
  else SessionResult.ok
    { readyClosed := false, readyGeneration := s.readyGeneration + 1, wgCounter := s.wgCounter - 1 }

/-- n consecutive consume sessions from the initial state. -/
def runSessions : Nat → SessionResult
  | 0 => SessionResult.ok initialLoopState
  | n + 1 =>
    match runSessions n with
    | SessionResult.panicked e => SessionResult.panicked e
    | SessionResult.ok s => sessionStep s

/- ========================================================================
   Section 9: helper lemmas for digits, calendar and serialization
   ======================================================================== -/

theorem digitVal_digitChar {k : Nat} (h : k < 10) : digitVal (digitChar k) = k := by
  interval_cases k <;> decide

theorem isDigitCh_digitChar {k : Nat} (h : k < 10) : isDigitCh (digitChar k) = true := by
  interval_cases k <;> decide

theorem parse2_pad2 {n : Nat} (h : n < 100) (rest : List Char) :
    parse2 (pad2 n ++ rest) = some (n, rest) := by
  simp only [pad2, List.cons_append, List.nil_append, parse2,
    isDigitCh_digitChar (by omega : n / 10 < 10), isDigitCh_digitChar (by omega : n % 10 < 10),
    digitVal_digitChar (by omega : n / 10 < 10), digitVal_digitChar (by omega : n % 10 < 10),
    Bool.and_self, if_true]
  simp only [Option.some.injEq, Prod.mk.injEq]
  exact ⟨by omega, trivial⟩

theorem parse4_pad4 {n : Nat} (h : n < 10000) (rest : List Char) :
    parse4 (pad4 n ++ rest) = some (n, rest) := by
  simp only [pad4, List.cons_append, List.nil_append, parse4,
    isDigitCh_digitChar (by omega : n / 1000 < 10),
    isDigitCh_digitChar (by omega : n / 100 % 10 < 10),
    isDigitCh_digitChar (by omega : n / 10 % 10 < 10),
    isDigitCh_digitChar (by omega : n % 10 < 10),
    digitVal_digitChar (by omega : n / 1000 < 10),
    digitVal_digitChar (by omega : n / 100 % 10 < 10),
    digitVal_digitChar (by omega : n / 10 % 10 < 10),
    digitVal_digitChar (by omega : n % 10 < 10),
    Bool.and_self, if_true]
  simp only [Option.some.injEq, Prod.mk.injEq]
  exact ⟨by omega, trivial⟩

theorem expectCh_cons (c : Char) (rest : List Char) : expectCh c (c :: rest) = some rest := by
  simp [expectCh]

theorem cut400_spec (d : Int) :
    146097 * (cut400 d).1 + (cut400 d).2 = d ∧ 0 ≤ (cut400 d).2 ∧ (cut400 d).2 ≤ 146096 := by
  simp only [cut400]; omega

theorem cut100_spec (r : Int) (h0 : 0 ≤ r) (h1 : r ≤ 146096) :
    36524 * (cut100 r).1 + (cut100 r).2 = r ∧ 0 ≤ (cut100 r).1 ∧ (cut100 r).1 ≤ 3 ∧
    0 ≤ (cut100 r).2 ∧ (cut100 r).2 ≤ 36524 := by
  simp only [cut100]; omega

theorem cut4_spec (r : Int) (h0 : 0 ≤ r) (h1 : r ≤ 36524) :
    1461 * (cut4 r).1 + (cut4 r).2 = r ∧ 0 ≤ (cut4 r).1 ∧ (cut4 r).1 ≤ 24 ∧
    0 ≤ (cut4 r).2 ∧ (cut4 r).2 ≤ 1460 := by
  simp only [cut4]; omega

theorem cut1_spec (r : Int) (h0 : 0 ≤ r) (h1 : r ≤ 1460) :
    365 * (cut1 r).1 + (cut1 r).2 = r ∧ 0 ≤ (cut1 r).1 ∧ (cut1 r).1 ≤ 3 ∧
    0 ≤ (cut1 r).2 ∧ (cut1 r).2 ≤ 365 := by
  simp only [cut1]; omega

theorem split400_eval (q s : Int) (h0 : 0 ≤ s) (h1 : s ≤ 399) :
    split400 (400 * q + s) = (q, s) := by
  simp only [split400, Prod.mk.injEq]; omega

theorem split100_eval (q s : Int) (h0 : 0 ≤ s) (h1 : s ≤ 99) :
    split100 (100 * q + s) = (q, s) := by
  simp only [split100, Prod.mk.injEq]; omega

theorem split4_eval (q s : Int) (h0 : 0 ≤ s) (h1 : s ≤ 3) :
    split4 (4 * q + s) = (q, s) := by
  simp only [split4, Prod.mk.injEq]; omega

theorem cutCycles_rt (d : Int) :
    daysOfYearStart (cutCycles d).1 + (cutCycles d).2 = d ∧
    0 ≤ (cutCycles d).2 ∧ (cutCycles d).2 ≤ 365 := by
  obtain ⟨e400, l400, u400⟩ := cut400_spec d
  obtain ⟨e100, ln, un, l100, u100⟩ := cut100_spec (cut400 d).2 l400 u400
  obtain ⟨e4, ln4, un4, l4, u4⟩ := cut4_spec (cut100 (cut400 d).2).2 l100 u100
  obtain ⟨e1, ln1, un1, l1, u1⟩ := cut1_spec (cut4 (cut100 (cut400 d).2).2).2 l4 u4
  have hcc : cutCycles d =
      (400 * (cut400 d).1 + 100 * (cut100 (cut400 d).2).1 +
        4 * (cut4 (cut100 (cut400 d).2).2).1 + (cut1 (cut4 (cut100 (cut400 d).2).2).2).1,
       (cut1 (cut4 (cut100 (cut400 d).2).2).2).2) := rfl
  rw [hcc]
  refine ⟨?_, l1, u1⟩
  have h1 : 400 * (cut400 d).1 + 100 * (cut100 (cut400 d).2).1 +
      4 * (cut4 (cut100 (cut400 d).2).2).1 + (cut1 (cut4 (cut100 (cut400 d).2).2).2).1 =
      400 * (cut400 d).1 + (100 * (cut100 (cut400 d).2).1 +
        (4 * (cut4 (cut100 (cut400 d).2).2).1 + (cut1 (cut4 (cut100 (cut400 d).2).2).2).1)) := by
    ring
  rw [daysOfYearStart, h1, split400_eval _ _ (by omega) (by omega)]
  simp only
  rw [split100_eval _ _ (by omega) (by omega)]
  simp only
  rw [split4_eval _ _ (by omega) (by omega)]
  omega

set_option maxRecDepth 4000 in
theorem monthDay_rt_nat : ∀ n : Nat, n < 366 → ∀ L : Bool,
    ydayOfMonthDay L (monthDayOfYday L (n : Int)).1 (monthDayOfYday L (n : Int)).2 = (n : Int) ∧
    1 ≤ (monthDayOfYday L (n : Int)).1 ∧ (monthDayOfYday L (n : Int)).1 ≤ 13 ∧
    1 ≤ (monthDayOfYday L (n : Int)).2 ∧ (monthDayOfYday L (n : Int)).2 ≤ 32 := by
  decide

theorem valMSB_reverse (cs : List Char) : valMSB cs.reverse = valLSB cs := by
  induction cs with
  | nil => rfl
  | cons c cs ih =>
    simp only [List.reverse_cons, valMSB, List.foldl_append, List.foldl_cons, List.foldl_nil,
      valLSB]
    rw [valMSB] at ih
    omega

theorem valLSB_lsbDigits {L v : Nat} (h : v < 10 ^ L) : valLSB (lsbDigits L v) = v := by
  induction L generalizing v with
  | zero => simp at h; simp [h, lsbDigits, valLSB]
  | succ L ih =>
    simp only [lsbDigits, valLSB, digitVal_digitChar (Nat.mod_lt _ (by omega))]
    rw [ih (by rw [pow_succ] at h; omega)]
    omega

theorem lsbDigits_length (L v : Nat) : (lsbDigits L v).length = L := by
  induction L generalizing v with
  | zero => rfl
  | succ L ih => simp [lsbDigits, ih]

theorem lsbDigits_all_digits (L v : Nat) : ∀ c ∈ lsbDigits L v, isDigitCh c = true := by
  induction L generalizing v with
  | zero => intro c hc; simp [lsbDigits] at hc
  | succ L ih =>
    intro c hc
    simp only [lsbDigits, List.mem_cons] at hc
    rcases hc with h | h
    · rw [h]; exact isDigitCh_digitChar (Nat.mod_lt _ (by omega))
    · exact ih _ c h

theorem strip_spec {L v : Nat} (h : v < 10 ^ L) :
    valLSB (stripLeadZeros (lsbDigits L v)) *
      10 ^ (L - (stripLeadZeros (lsbDigits L v)).length) = v ∧
    (stripLeadZeros (lsbDigits L v)).length ≤ L := by
  induction L generalizing v with
  | zero => simp at h; simp [h, lsbDigits, stripLeadZeros, valLSB]
  | succ L ih =>
    have hv10 : v / 10 < 10 ^ L := by rw [pow_succ] at h; omega
    by_cases h0 : v % 10 = 0
    · have hch : digitChar (v % 10) = '0' := by rw [h0]; rfl
      have heq : stripLeadZeros (lsbDigits (L + 1) v) = stripLeadZeros (lsbDigits L (v / 10)) := by
        simp [lsbDigits, stripLeadZeros, hch]
      rw [heq]
      obtain ⟨ihv, ihl⟩ := ih hv10
      refine ⟨?_, by omega⟩
      have hsub : L + 1 - (stripLeadZeros (lsbDigits L (v / 10))).length =
          (L - (stripLeadZeros (lsbDigits L (v / 10))).length) + 1 := by omega
      rw [hsub, pow_succ]
      have hmul : valLSB (stripLeadZeros (lsbDigits L (v / 10))) *
          (10 ^ (L - (stripLeadZeros (lsbDigits L (v / 10))).length) * 10) =
          (valLSB (stripLeadZeros (lsbDigits L (v / 10))) *
            10 ^ (L - (stripLeadZeros (lsbDigits L (v / 10))).length)) * 10 := by
        ring
      rw [hmul, ihv]
      omega
    · have hch : (digitChar (v % 10) == '0') = false := by
        have hlt : v % 10 < 10 := Nat.mod_lt _ (by omega)
        interval_cases hvm : v % 10 <;> simp_all <;> decide
      have heq : stripLeadZeros (lsbDigits (L + 1) v) =
          digitChar (v % 10) :: lsbDigits L (v / 10) := by
        simp [lsbDigits, stripLeadZeros, hch]
      rw [heq]
      simp only [valLSB, List.length_cons, lsbDigits_length,
        digitVal_digitChar (Nat.mod_lt v (by omega : 0 < 10))]
      rw [valLSB_lsbDigits hv10]
      constructor
      · have hz : L + 1 - (L + 1) = 0 := by omega
        rw [hz, pow_zero]
        omega
      · omega

theorem takeWhile_all_append {p : Char → Bool} {l : List Char} {z : Char} {t : List Char}
    (hall : ∀ c ∈ l, p c = true) (hz : p z = false) :
    (l ++ z :: t).takeWhile p = l ∧ (l ++ z :: t).dropWhile p = z :: t := by
  induction l with
  | nil => simp [List.takeWhile, List.dropWhile, hz]
  | cons a l ih =>
    have ha : p a = true := hall a (List.mem_cons_self a l)
    obtain ⟨ih1, ih2⟩ := ih (fun c hc => hall c (List.mem_cons_of_mem a hc))
    refine ⟨?_, ?_⟩
    · simp only [List.cons_append, List.takeWhile_cons, ha, if_true, ih1]
    · simp only [List.cons_append, List.dropWhile_cons, ha, if_true, ih2]

theorem mem_of_mem_stripLead {l : List Char} {c : Char}
    (h : c ∈ stripLeadZeros l) : c ∈ l := by
  have hs : List.Sublist (stripLeadZeros l) l := List.dropWhile_sublist _
  exact hs.mem h

theorem notDigit_Z : isDigitCh 'Z' = false := by decide

theorem parseFrac_fracPart {nsec : Nat} (h : nsec < 1000000000) (t : List Char) :
    parseFrac (fracPart nsec ++ 'Z' :: t) = some (nsec, 'Z' :: t) := by
  by_cases h0 : nsec = 0
  · subst h0
    simp [fracPart, parseFrac]
  · have hpow : nsec < 10 ^ 9 := by omega
    obtain ⟨hval, hlen⟩ := strip_spec hpow
    set F := stripLeadZeros (lsbDigits 9 nsec) with hF
    have hFne : F ≠ [] := by
      intro hemp
      rw [hemp] at hval
      simp [valLSB] at hval
      omega
    have hdig : ∀ c ∈ F.reverse, isDigitCh c = true := by
      intro c hc
      rw [List.mem_reverse] at hc
      exact lsbDigits_all_digits 9 nsec c (mem_of_mem_stripLead hc)
    have hfp : fracPart nsec = '.' :: F.reverse := by simp [fracPart, h0]
    rw [hfp]
    obtain ⟨htake, hdrop⟩ := takeWhile_all_append (t := t) hdig notDigit_Z
    have hlenr : F.reverse.length = F.length := List.length_reverse F
    have hlen1 : F.length ≠ 0 := fun hh => hFne (List.eq_nil_of_length_eq_zero hh)
    simp only [List.cons_append, parseFrac, if_pos rfl, ite_true, htake, hdrop]
    rw [parseFracDigits]
    simp only [hlenr]
    rw [if_neg hlen1, if_neg (by omega : ¬ 9 < F.length)]
    rw [valMSB_reverse, hval]

theorem parseDatePart_eval (Y MO DD : Nat) (rest : List Char)
    (hY : Y < 10000) (hMO : MO < 100) (hDD : DD < 100) :
    parseDatePart (pad4 Y ++ '-' :: (pad2 MO ++ '-' :: (pad2 DD ++ 'T' :: rest))) =
      some (Y, MO, DD, rest) := by
  rw [parseDatePart]
  rw [parse4_pad4 hY, Option.some_bind]
  dsimp only
  rw [expectCh_cons, Option.some_bind]
  rw [parse2_pad2 hMO, Option.some_bind]
  dsimp only
  rw [expectCh_cons, Option.some_bind]
  rw [parse2_pad2 hDD, Option.some_bind]
  dsimp only
  rw [expectCh_cons, Option.some_bind]

theorem parseClockPart_eval (HH MI SS : Nat) (rest : List Char)
    (hHH : HH < 100) (hMI : MI < 100) (hSS : SS < 100) :
    parseClockPart (pad2 HH ++ ':' :: (pad2 MI ++ ':' :: (pad2 SS ++ rest))) =
      some (HH, MI, SS, rest) := by
  rw [parseClockPart]
  rw [parse2_pad2 hHH, Option.some_bind]
  dsimp only
  rw [expectCh_cons, Option.some_bind]
  rw [parse2_pad2 hMI, Option.some_bind]
  dsimp only
  rw [expectCh_cons, Option.some_bind]
  rw [parse2_pad2 hSS, Option.some_bind]

theorem parseFracZEnd_eval (ns : Nat) (hns : ns < 1000000000) :
    parseFracZEnd (fracPart ns ++ ['Z']) = some ns := by
  rw [parseFracZEnd]
  rw [parseFrac_fracPart hns, Option.some_bind]
  dsimp only
  rw [expectCh_cons, Option.some_bind]
  rfl

theorem parseRFC3339_fields (Y MO DD HH MI SS ns : Nat)
    (hY : Y < 10000) (hMO : MO < 100) (hDD : DD < 100)
    (hHH : HH < 100) (hMI : MI < 100) (hSS : SS < 100) (hns : ns < 1000000000) :
    parseRFC3339 (pad4 Y ++ '-' :: (pad2 MO ++ '-' :: (pad2 DD ++ 'T' ::
      (pad2 HH ++ ':' :: (pad2 MI ++ ':' :: (pad2 SS ++ (fracPart ns ++ ['Z']))))))) =
    some ((daysOfYearStart ((Y : Int) + 399) +
      ydayOfMonthDay (isLeapYear (Y : Int)) (MO : Int) (DD : Int) - 865259) * 86400 +
      (HH : Int) * 3600 + (MI : Int) * 60 + (SS : Int), ns) := by
  rw [parseRFC3339]
  rw [parseDatePart_eval Y MO DD _ hY hMO hDD, Option.some_bind]
  dsimp only
  rw [parseClockPart_eval HH MI SS _ hHH hMI hSS, Option.some_bind]
  dsimp only
  rw [parseFracZEnd_eval ns hns, Option.some_bind]

theorem parseRFC3339_fmt (sec : Int) (nsec : Nat)
    (hy0 : 0 ≤ (dateOf sec).1) (hy1 : (dateOf sec).1 ≤ 9999) (hn : nsec < 1000000000) :
    parseRFC3339 (fmtRFC3339Nano sec nsec) = some (sec, nsec) := by
  obtain ⟨hrt, hl, hu⟩ := cutCycles_rt (sec / 86400 + 865259)
  set cc := cutCycles (sec / 86400 + 865259) with hcc
  have hccy : (dateOf sec).1 = cc.1 - 399 := rfl
  set L := isLeapYear (cc.1 - 399) with hLdef
  obtain ⟨hyd, hm1, hm2, hd1, hd2⟩ := monthDay_rt_nat cc.2.toNat (by omega) L
  have hcast : ((cc.2.toNat : Nat) : Int) = cc.2 := Int.toNat_of_nonneg hl
  rw [hcast] at hyd hm1 hm2 hd1 hd2
  set md := monthDayOfYday L cc.2 with hmddef
  have hmd : (dateOf sec).2 = md := rfl
  have hsodb : 0 ≤ sec % 86400 ∧ sec % 86400 < 86400 :=
    ⟨Int.emod_nonneg _ (by omega), Int.emod_lt_of_pos _ (by omega)⟩
  set sod := (sec % 86400).toNat with hsod
  have hsodlt : sod < 86400 := by omega
  have hck : clockOf sec = (sod / 3600, sod % 3600 / 60, sod % 60) := rfl
  have hy4 : (dateOf sec).1.toNat < 10000 := by omega
  have hmo : (dateOf sec).2.1.toNat < 100 := by rw [hmd]; omega
  have hdd : (dateOf sec).2.2.toNat < 100 := by rw [hmd]; omega
  rw [fmtRFC3339Nano, hck]
  dsimp only
  rw [parseRFC3339_fields _ _ _ _ _ _ _ hy4 hmo hdd (by omega) (by omega) (by omega) hn]
  have hyint : (((dateOf sec).1.toNat : Nat) : Int) = cc.1 - 399 := by
    rw [← hccy]; exact Int.toNat_of_nonneg hy0
  have hmoint : (((dateOf sec).2.1.toNat : Nat) : Int) = md.1 := by
    rw [hmd]; exact Int.toNat_of_nonneg (by omega)
  have hddint : (((dateOf sec).2.2.toNat : Nat) : Int) = md.2 := by
    rw [hmd]; exact Int.toNat_of_nonneg (by omega)
  rw [hyint, hmoint, hddint]
  have harith : cc.1 - 399 + 399 = cc.1 := by ring
  rw [harith, ← hLdef, hyd]
  simp only [Option.some.injEq, Prod.mk.injEq]
  refine ⟨?_, trivial⟩
  have hdays : daysOfYearStart cc.1 + cc.2 - 865259 = sec / 86400 := by omega
  rw [hdays]
  push_cast
  omega

/- ========================================================================
   Section 10: the claims
   ======================================================================== -/

/-- C3 evidence: NewProducer enables idempotent mode but leaves
Net.MaxOpenRequests at its default of 5, so sarama's configuration
validation rejects the config before any broker is contacted and
NewProducer returns an error for every input, brokers reachable or not. -/
theorem c3_new_producer_always_rejected :
    NewProducer ["localhost:9092"] "tickets" true =
      Except.error "Idempotent producer requires Net.MaxOpenRequests to be 1" ∧
    NewProducer ["kafka:9092"] "tickets" false =
      Except.error "Idempotent producer requires Net.MaxOpenRequests to be 1" :=
  ⟨rfl, rfl⟩

/-- C5 evidence: the struct literal NewProducer returns leaves the metrics
pointer nil, so SendTicket's counter update dereferences nil and panics on
both the success path and the send-failure path, instead of updating
MessagesProduced or ErrorsCount. -/
theorem c5_send_ticket_nil_metrics_panics :
    SendTicket (newProducerStruct "tickets")
      { ID := "t-1", Timestamp := { sec := 1700000000, nsec := 123000000 },
        OrderID := 42, Data := "hello" } none =
      SendTicketResult.panickedNilMetrics
        { topic := "tickets", key := "42",
          value := Json.obj [("id", Json.str "t-1"),
            ("timestamp", Json.str "2023-11-14T22:13:20.123Z"),
            ("order_id", Json.num 42), ("data", Json.str "hello")],
          timestamp := { sec := 1700000000, nsec := 123000000 } } ∧
    SendTicket (newProducerStruct "tickets")
      { ID := "t-1", Timestamp := { sec := 1700000000, nsec := 123000000 },
        OrderID := 42, Data := "hello" } (some "kafka: broker unreachable") =
      SendTicketResult.panickedNilMetrics
        { topic := "tickets", key := "42",
          value := Json.obj [("id", Json.str "t-1"),
            ("timestamp", Json.str "2023-11-14T22:13:20.123Z"),
            ("order_id", Json.num 42), ("data", Json.str "hello")],
          timestamp := { sec := 1700000000, nsec := 123000000 } } :=
  ⟨by with_unfolding_all rfl, by with_unfolding_all rfl⟩

/-- C7: the producer config retries at most 5 times; the backoff built by
CreateBackOff starts at 100ms, doubles, is capped at 2s per interval and
at MaxRetries times MaxInterval = 10s in total; and a send error is
returned to SendTicket's caller (after being counted) rather than handled
inside. -/
theorem c7_bounded_backoff_error_surfaced :
    newProducerConfig.producerRetryMax = 5 ∧
    (CreateBackOff NewRetryConfig).initialInterval = 100000000 ∧
    (CreateBackOff NewRetryConfig).multiplier = 2 ∧
    (CreateBackOff NewRetryConfig).maxInterval = 2000000000 ∧
    (CreateBackOff NewRetryConfig).maxElapsedTime =
      (NewRetryConfig.MaxRetries : Int) * NewRetryConfig.MaxInterval ∧
    (CreateBackOff NewRetryConfig).maxElapsedTime = 10000000000 ∧
    ∀ (p : Producer) (m : Metrics) (t : Ticket) (e : String) (j : Json),
      p.metrics = some m → ticketMarshalJSON t = Except.ok j →
      SendTicket p t (some e) = SendTicketResult.returnedErr
        { topic := p.topic, key := ticketKey t, value := j, timestamp := t.Timestamp } e
        { m with errorsCount := m.errorsCount + 1 } := by
  refine ⟨rfl, rfl, rfl, rfl, by decide, by decide, ?_⟩
  intro p m t e j hpm hok
  simp [SendTicket, hok, hpm]

/-- C7 witness: a producer whose metrics pointer is set gets the broker
error back from SendTicket, with the error counter bumped. -/
theorem c7_bounded_backoff_error_surfaced_witness :
    ({ topic := "tickets", metrics := some NewMetrics } : Producer).metrics = some NewMetrics ∧
    ticketMarshalJSON
      { ID := "t-1", Timestamp := { sec := 1700000000, nsec := 123000000 },
        OrderID := 42, Data := "hello" } =
      Except.ok (Json.obj [("id", Json.str "t-1"),
        ("timestamp", Json.str "2023-11-14T22:13:20.123Z"),
        ("order_id", Json.num 42), ("data", Json.str "hello")]) ∧
    SendTicket { topic := "tickets", metrics := some NewMetrics }
      { ID := "t-1", Timestamp := { sec := 1700000000, nsec := 123000000 },
        OrderID := 42, Data := "hello" } (some "kafka: request timed out") =
      SendTicketResult.returnedErr
        { topic := "tickets", key := "42",
          value := Json.obj [("id", Json.str "t-1"),
            ("timestamp", Json.str "2023-11-14T22:13:20.123Z"),
            ("order_id", Json.num 42), ("data", Json.str "hello")],
          timestamp := { sec := 1700000000, nsec := 123000000 } }
        "kafka: request timed out" { NewMetrics with errorsCount := 1 } :=
  ⟨rfl, by with_unfolding_all rfl, by
    with_unfolding_all
      exact c7_bounded_backoff_error_surfaced.2.2.2.2.2.2 _ NewMetrics _
        "kafka: request timed out" _ rfl (by with_unfolding_all rfl)⟩

/-- C8: the partition key SendTicket derives is the decimal rendering of
an int64 and is never the empty string. -/
theorem c8_partition_key_nonempty (t : Ticket) : ticketKey t ≠ "" := by
  have hne : ∀ n : Nat, natDigitsRev n ≠ [] := by
    intro n
    rw [natDigitsRev]
    split <;> simp
  rw [ticketKey, formatInt]
  split
  · intro h
    have hd : '-' :: (natDigitsRev (-t.OrderID).toNat).reverse = [] := congrArg String.data h
    simp at hd
  · intro h
    have hd : (natDigitsRev t.OrderID.toNat).reverse = [] := congrArg String.data h
    rw [List.reverse_eq_nil_iff] at hd
    exact hne _ hd

/-- C8 witness: the key of a concrete ticket, including a negative order
id, is nonempty. -/
theorem c8_partition_key_nonempty_witness :
    ticketKey ({ ID := "a", Timestamp := { sec := 0, nsec := 0 }, OrderID := -5, Data := "" } : Ticket) ≠ "" :=
  c8_partition_key_nonempty _

/-- C9 counterexample: a Ticket whose Timestamp year is 10000 makes
json.Marshal fail, so SendTicket takes the serialization-error early
return and never reaches the broker send; the early return is
reachable. -/
theorem c9_marshal_can_fail :
    ticketMarshalJSON
      { ID := "t-bad", Timestamp := { sec := 253402300800, nsec := 0 },
        OrderID := 1, Data := "d" } =
      Except.error "Time.MarshalJSON: year outside of range [0,9999]" ∧
    SendTicket (newProducerStruct "tickets")
      { ID := "t-bad", Timestamp := { sec := 253402300800, nsec := 0 },
        OrderID := 1, Data := "d" } none =
      SendTicketResult.marshalErr "Time.MarshalJSON: year outside of range [0,9999]" :=
  ⟨by with_unfolding_all rfl, by with_unfolding_all rfl⟩

/-- C9 (amended): for every Ticket whose Timestamp year lies in [0,9999],
json.Marshal succeeds, and every SendTicket call on such a ticket gets
past serialization to the broker send. -/
theorem c9_marshal_in_year_range (p : Producer) (t : Ticket) (sendErr : Option String)
    (hy0 : 0 ≤ (dateOf t.Timestamp.sec).1) (hy1 : (dateOf t.Timestamp.sec).1 ≤ 9999) :
    ticketMarshalJSON t = Except.ok (Json.obj [("id", Json.str t.ID),
      ("timestamp", Json.str (String.mk (fmtRFC3339Nano t.Timestamp.sec t.Timestamp.nsec))),
      ("order_id", Json.num t.OrderID), ("data", Json.str t.Data)]) ∧
    (SendTicket p t sendErr).reachedSend = true := by
  have htm : timeMarshalJSON t.Timestamp =
      Except.ok (String.mk (fmtRFC3339Nano t.Timestamp.sec t.Timestamp.nsec)) := by
    rw [timeMarshalJSON, if_neg (by omega)]
  have hok : ticketMarshalJSON t = Except.ok (Json.obj [("id", Json.str t.ID),
      ("timestamp", Json.str (String.mk (fmtRFC3339Nano t.Timestamp.sec t.Timestamp.nsec))),
      ("order_id", Json.num t.OrderID), ("data", Json.str t.Data)]) := by
    rw [ticketMarshalJSON, htm]
  refine ⟨hok, ?_⟩
  rcases sendErr with _ | e <;> rcases hpm : p.metrics with _ | m <;>
    simp [SendTicket, hok, hpm, SendTicketResult.reachedSend]

/-- C9 witness: a year-2023 ticket marshals and its send call reaches the
broker. -/
theorem c9_marshal_in_year_range_witness :
    0 ≤ (dateOf ({ sec := 1700000000, nsec := 123000000 } : GoTime).sec).1 ∧
    (dateOf ({ sec := 1700000000, nsec := 123000000 } : GoTime).sec).1 ≤ 9999 ∧
    (SendTicket (newProducerStruct "tickets")
      { ID := "t-1", Timestamp := { sec := 1700000000, nsec := 123000000 },
        OrderID := 42, Data := "hello" } none).reachedSend = true :=
  ⟨by decide, by decide,
    (c9_marshal_in_year_range (newProducerStruct "tickets")
      { ID := "t-1", Timestamp := { sec := 1700000000, nsec := 123000000 },
        OrderID := 42, Data := "hello" } none (by decide) (by decide)).2⟩

/-- C10 counterexample: with wg.Add(1) called once before the consume
loop and wg.Done called in every session's Cleanup, the second completed
session panics with a negative WaitGroup counter. -/
theorem c10_second_session_panics :
    runSessions 2 = SessionResult.panicked "sync: negative WaitGroup counter" := rfl

/-- C10 (amended): each session's Setup does close a freshly constructed
channel (the loop remakes it after every Consume call), and the first
session completes with the counter at zero; but every run of two or more
sessions panics in Cleanup with a negative WaitGroup counter, because
wg.Add(1) is called only once. -/
theorem c10_sessions_lifecycle :
    runSessions 1 = SessionResult.ok
      { readyClosed := false, readyGeneration := 2, wgCounter := 0 } ∧
    ∀ n : Nat, runSessions (n + 2) =
      SessionResult.panicked "sync: negative WaitGroup counter" := by
  refine ⟨rfl, ?_⟩
  intro n
  induction n with
  | zero => rfl
  | succ n ih =>
    have hstep : runSessions (n + 1 + 2) = match runSessions (n + 2) with
      | SessionResult.panicked e => SessionResult.panicked e
      | SessionResult.ok s => sessionStep s := rfl
    rw [hstep, ih]

/-- Round trip of the timestamp leaf: a time value that marshals without
error is recovered exactly by unmarshalling. -/
theorem timeRoundTrip (gt : GoTime) (s : String) (hwf : gt.wf)
    (hok : timeMarshalJSON gt = Except.ok s) : timeUnmarshalJSON s = some gt := by
  rw [timeMarshalJSON] at hok
  by_cases hg : (dateOf gt.sec).1 < 0 ∨ 9999 < (dateOf gt.sec).1
  · rw [if_pos hg] at hok
    exact absurd hok (by simp)
  · rw [if_neg hg] at hok
    injection hok with hs
    subst hs
    rw [timeUnmarshalJSON]
    have hdata : (String.mk (fmtRFC3339Nano gt.sec gt.nsec)).data =
        fmtRFC3339Nano gt.sec gt.nsec := rfl
    rw [hdata, parseRFC3339_fmt gt.sec gt.nsec (by omega) (by omega) hwf]
    rfl

/-- C6: decoding the JSON encoding produced by the publish path yields the
original record: for every Ticket (with the nanosecond invariant Go time
values carry) whose marshalling succeeds, unmarshalling the produced JSON
returns the identical ticket in all four fields. -/
theorem c6_encode_decode_roundTrip (t : Ticket) (j : Json) (hwf : t.Timestamp.wf)
    (hok : ticketMarshalJSON t = Except.ok j) : ticketUnmarshalJSON j = some t := by
  rw [ticketMarshalJSON] at hok
  cases htm : timeMarshalJSON t.Timestamp with
  | error e =>
    rw [htm] at hok
    exact absurd hok (by simp)
  | ok ts =>
    rw [htm] at hok
    injection hok with hj
    subst hj
    have hun : ticketUnmarshalJSON (Json.obj [("id", Json.str t.ID),
        ("timestamp", Json.str ts), ("order_id", Json.num t.OrderID),
        ("data", Json.str t.Data)]) =
        (timeUnmarshalJSON ts).map fun gt =>
          { ID := t.ID, Timestamp := gt, OrderID := t.OrderID, Data := t.Data } := rfl
    rw [hun, timeRoundTrip t.Timestamp ts hwf htm]
    rfl

/-- C6 witness: a concrete ticket survives the encode/decode round trip. -/
theorem c6_encode_decode_roundTrip_witness :
    ({ sec := 1700000000, nsec := 123000000 } : GoTime).wf ∧
    ticketMarshalJSON
      { ID := "t-1", Timestamp := { sec := 1700000000, nsec := 123000000 },
        OrderID := 42, Data := "hello" } =
      Except.ok (Json.obj [("id", Json.str "t-1"),
        ("timestamp", Json.str "2023-11-14T22:13:20.123Z"),
        ("order_id", Json.num 42), ("data", Json.str "hello")]) ∧
    ticketUnmarshalJSON (Json.obj [("id", Json.str "t-1"),
        ("timestamp", Json.str "2023-11-14T22:13:20.123Z"),
        ("order_id", Json.num 42), ("data", Json.str "hello")]) =
      some
        { ID := "t-1", Timestamp := { sec := 1700000000, nsec := 123000000 },
          OrderID := 42, Data := "hello" } :=
  ⟨by show (123000000 : Nat) < 1000000000; decide, by with_unfolding_all rfl,
    c6_encode_decode_roundTrip
      { ID := "t-1", Timestamp := { sec := 1700000000, nsec := 123000000 },
        OrderID := 42, Data := "hello" } _
      (by show (123000000 : Nat) < 1000000000; decide) (by with_unfolding_all rfl)⟩

/-- C4: in both consumer handlers a message's offset is marked only after
that message's processing completed: in Handler.ConsumeClaim every marked
event is preceded by the successful processing of the same message (and
decode failures are never marked), and in ConsumerHandler.ConsumeClaim
every marked event is preceded by the handling (log) of the same
message. -/
theorem c4_marked_only_after_processed :
    (∀ (now : Int) (m : Metrics) (msgs : List ConsumerMessage) (i : Nat)
        (msg : ConsumerMessage),
      (ConsumeClaim now m msgs).2[i]? = some (ConsumeEvent.marked msg) →
      ∃ jj tk, jj < i ∧
        (ConsumeClaim now m msgs).2[jj]? = some (ConsumeEvent.processed msg tk)) ∧
    (∀ (msgs : List ConsumerMessage) (i : Nat) (msg : ConsumerMessage),
      (mainConsumeClaim msgs)[i]? = some (MainConsumeEvent.marked msg) →
      ∃ jj, jj < i ∧ (mainConsumeClaim msgs)[jj]? = some (MainConsumeEvent.logged msg)) := by
  constructor
  · intro now m msgs
    induction msgs generalizing m with
    | nil =>
      intro i msg hi
      simp [ConsumeClaim] at hi
    | cons msg0 rest ih =>
      intro i msg hi
      have hsplit : (ConsumeClaim now m (msg0 :: rest)).2 =
          (handleOneMessage now m msg0).2 ++
            (ConsumeClaim now (handleOneMessage now m msg0).1 rest).2 := rfl
      rw [hsplit] at hi ⊢
      cases hdec : msg0.value.bind ticketUnmarshalJSON with
      | none =>
        rw [handleOneMessage, hdec] at hi ⊢
        match i, hi with
        | 0, hi => simp at hi
        | ii + 1, hi =>
          simp only [List.cons_append, List.nil_append, List.getElem?_cons_succ] at hi
          obtain ⟨jj, tk, hjj, hg⟩ := ih _ ii msg hi
          exact ⟨jj + 1, tk, by omega, by
            simp only [List.cons_append, List.nil_append, List.getElem?_cons_succ]
            exact hg⟩
      | some t0 =>
        rw [handleOneMessage, hdec] at hi ⊢
        match i, hi with
        | 0, hi => simp at hi
        | 1, hi =>
          simp only [List.cons_append, List.nil_append, List.getElem?_cons_succ,
            List.getElem?_cons_zero, Option.some.injEq] at hi
          have hmsg : msg0 = msg := by
            cases hi
            rfl
          exact ⟨0, t0, by omega, by
            simp only [List.cons_append, List.nil_append, List.getElem?_cons_zero, hmsg]⟩
        | ii + 2, hi =>
          simp only [List.cons_append, List.nil_append, List.getElem?_cons_succ] at hi
          obtain ⟨jj, tk, hjj, hg⟩ := ih _ ii msg hi
          exact ⟨jj + 2, tk, by omega, by
            simp only [List.cons_append, List.nil_append, List.getElem?_cons_succ]
            exact hg⟩
  · intro msgs
    induction msgs with
    | nil =>
      intro i msg hi
      simp [mainConsumeClaim] at hi
    | cons msg0 rest ih =>
      intro i msg hi
      rw [mainConsumeClaim] at hi ⊢
      match i, hi with
      | 0, hi => simp at hi
      | 1, hi =>
        simp only [List.getElem?_cons_succ, List.getElem?_cons_zero, Option.some.injEq] at hi
        have hmsg : msg0 = msg := by
          cases hi
          rfl
        exact ⟨0, by omega, by simp only [List.getElem?_cons_zero, hmsg]⟩
      | ii + 2, hi =>
        simp only [List.getElem?_cons_succ] at hi
        obtain ⟨jj, hjj, hg⟩ := ih ii msg hi
        exact ⟨jj + 2, by omega, by
          simp only [List.getElem?_cons_succ]
          exact hg⟩

/-- C4 witness: on a concrete delivered message the marked event sits
strictly after the processing event, in both handlers. -/
theorem c4_marked_only_after_processed_witness :
    (ConsumeClaim 0 NewMetrics
      [{ topic := "tickets", partition := 0, offset := 6,
         value := some (Json.obj [("id", Json.str "t-1"),
           ("timestamp", Json.str "2023-11-14T22:13:20.123Z"),
           ("order_id", Json.num 42), ("data", Json.str "hello")]) }]).2[1]? =
      some (ConsumeEvent.marked
        { topic := "tickets", partition := 0, offset := 6,
          value := some (Json.obj [("id", Json.str "t-1"),
            ("timestamp", Json.str "2023-11-14T22:13:20.123Z"),
            ("order_id", Json.num 42), ("data", Json.str "hello")]) }) ∧
    (∃ jj tk, jj < 1 ∧
      (ConsumeClaim 0 NewMetrics
        [{ topic := "tickets", partition := 0, offset := 6,
           value := some (Json.obj [("id", Json.str "t-1"),
             ("timestamp", Json.str "2023-11-14T22:13:20.123Z"),
             ("order_id", Json.num 42), ("data", Json.str "hello")]) }]).2[jj]? =
        some (ConsumeEvent.processed
          { topic := "tickets", partition := 0, offset := 6,
            value := some (Json.obj [("id", Json.str "t-1"),
              ("timestamp", Json.str "2023-11-14T22:13:20.123Z"),
              ("order_id", Json.num 42), ("data", Json.str "hello")]) } tk)) ∧
    (mainConsumeClaim
      [{ topic := "tickets", partition := 0, offset := 6, value := none }])[1]? =
      some (MainConsumeEvent.marked
        { topic := "tickets", partition := 0, offset := 6, value := none }) ∧
    (∃ jj, jj < 1 ∧
      (mainConsumeClaim
        [{ topic := "tickets", partition := 0, offset := 6, value := none }])[jj]? =
        some (MainConsumeEvent.logged
          { topic := "tickets", partition := 0, offset := 6, value := none })) :=
  ⟨by with_unfolding_all rfl,
    c4_marked_only_after_processed.1 0 NewMetrics _ 1 _ (by with_unfolding_all rfl),
    rfl,
    c4_marked_only_after_processed.2 _ 1 _ rfl⟩

/-- C2 evidence: a record whose payload fails decoding is counted
(ErrorsCount goes to 1) and does not block later records (a following
good record is consumed and marked), but the bad record itself is never
marked: on a partition whose stream ends with the malformed record at
offset 5 the committed offset stays 5 and never advances past it, against
the claim; only a later good record (offset 6) moves the offset to 7. -/
theorem c2_malformed_counted_skipped_never_marked :
    (ConsumeClaim 0 NewMetrics
      [{ topic := "tickets", partition := 0, offset := 5, value := none }]).1.errorsCount = 1 ∧
    committedAfter (ConsumeClaim 0 NewMetrics
      [{ topic := "tickets", partition := 0, offset := 5, value := none }]).2 0 5 = 5 ∧
    (ConsumeClaim 0 NewMetrics
      [{ topic := "tickets", partition := 0, offset := 5, value := none },
       { topic := "tickets", partition := 0, offset := 6,
         value := some (Json.obj [("id", Json.str "t-1"),
           ("timestamp", Json.str "2023-11-14T22:13:20.123Z"),
           ("order_id", Json.num 42), ("data", Json.str "hello")]) }]).1.messagesConsumed = 1 ∧
    committedAfter (ConsumeClaim 0 NewMetrics
      [{ topic := "tickets", partition := 0, offset := 5, value := none },
       { topic := "tickets", partition := 0, offset := 6,
         value := some (Json.obj [("id", Json.str "t-1"),
           ("timestamp", Json.str "2023-11-14T22:13:20.123Z"),
           ("order_id", Json.num 42), ("data", Json.str "hello")]) }]).2 0 5 = 7 :=
  ⟨by with_unfolding_all rfl, by with_unfolding_all rfl,
   by with_unfolding_all rfl, by with_unfolding_all rfl⟩

/-- C1: two tickets with equal OrderID get the identical partition key
(the decimal string of the OrderID), the deterministic hash partitioner
sends that key to one partition, and in the partitioned log the record
produced first is delivered on that partition strictly before the record
produced second, whatever records surround them. -/
theorem c1_same_key_same_partition_ordered (t1 t2 : Ticket) (n : Int)
    (hn : 0 < n) (h : t1.OrderID = t2.OrderID)
    (pre mid post : List (String × Json)) (v1 v2 : Json) :
    ticketKey t1 = ticketKey t2 ∧
    hashPartition (ticketKey t1) n = hashPartition (ticketKey t2) n ∧
    deliveredOnPartition (pre ++ (ticketKey t1, v1) :: (mid ++ (ticketKey t2, v2) :: post)) n
        (hashPartition (ticketKey t1) n) =
      deliveredOnPartition pre n (hashPartition (ticketKey t1) n) ++ (ticketKey t1, v1) ::
        (deliveredOnPartition mid n (hashPartition (ticketKey t1) n) ++ (ticketKey t2, v2) ::
          deliveredOnPartition post n (hashPartition (ticketKey t1) n)) := by
  have hkey : ticketKey t1 = ticketKey t2 := by
    rw [ticketKey, ticketKey, h]
  refine ⟨hkey, by rw [hkey], ?_⟩
  simp only [deliveredOnPartition, List.filter_append, List.filter_cons]
  rw [hkey]
  simp

/-- C1 witness: two concrete tickets with order id 7, eight partitions,
and a surrounding record with a different key. -/
theorem c1_same_key_same_partition_ordered_witness :
    (0 : Int) < 8 ∧
    ({ ID := "a", Timestamp := { sec := 0, nsec := 0 }, OrderID := 7, Data := "x" } : Ticket).OrderID =
      ({ ID := "b", Timestamp := { sec := 1, nsec := 0 }, OrderID := 7, Data := "y" } : Ticket).OrderID ∧
    deliveredOnPartition ([("3", Json.num 0)] ++
        (ticketKey { ID := "a", Timestamp := { sec := 0, nsec := 0 }, OrderID := 7, Data := "x" }, Json.str "r1") ::
        ([] ++ (ticketKey { ID := "b", Timestamp := { sec := 1, nsec := 0 }, OrderID := 7, Data := "y" }, Json.str "r2") :: [])) 8
        (hashPartition (ticketKey { ID := "a", Timestamp := { sec := 0, nsec := 0 }, OrderID := 7, Data := "x" }) 8) =
      deliveredOnPartition [("3", Json.num 0)] 8
        (hashPartition (ticketKey { ID := "a", Timestamp := { sec := 0, nsec := 0 }, OrderID := 7, Data := "x" }) 8) ++
        (ticketKey { ID := "a", Timestamp := { sec := 0, nsec := 0 }, OrderID := 7, Data := "x" }, Json.str "r1") ::
        (deliveredOnPartition [] 8
          (hashPartition (ticketKey { ID := "a", Timestamp := { sec := 0, nsec := 0 }, OrderID := 7, Data := "x" }) 8) ++
          (ticketKey { ID := "b", Timestamp := { sec := 1, nsec := 0 }, OrderID := 7, Data := "y" }, Json.str "r2") ::
          deliveredOnPartition [] 8
            (hashPartition (ticketKey { ID := "a", Timestamp := { sec := 0, nsec := 0 }, OrderID := 7, Data := "x" }) 8)) :=
  ⟨by decide, rfl,
    (c1_same_key_same_partition_ordered
      { ID := "a", Timestamp := { sec := 0, nsec := 0 }, OrderID := 7, Data := "x" }
      { ID := "b", Timestamp := { sec := 1, nsec := 0 }, OrderID := 7, Data := "y" }
      8 (by decide) rfl [("3", Json.num 0)] [] [] (Json.str "r1") (Json.str "r2")).2.2⟩
